import Mathlib

/-!
Verification of the RTCM3/NTRIP protocol engine of the esp32-gps firmware.

The development shallowly embeds the core of `src/ntrip.py` and
`src/main.py`: the CRC24Q checksum (`calc_crc24q`), the RTCM3 frame
scanner (`Client.iter_data`), the caster handshake/retry loop
(`Base.caster_connect`), the GGA relay loop (`Client.send_gga`) and the
sentence router (`ESP32GPS.gps_data`).  Bytes are modelled as natural
numbers below 256, byte strings as `List Nat`, and the asynchronous
stream reads as explicit list consumption with a fuel bound on loop
iterations.
-/

namespace Esp32Gps

/-- One iteration of the inner bit loop of `calc_crc24q`
(`crc <<= 1; if crc & 0x1000000: crc ^= poly` with `poly = 0x1864CFB`). -/
def crcStep (crc : Nat) : Nat :=
  let c := crc <<< 1
  if c &&& 0x1000000 ≠ 0 then c ^^^ 0x1864CFB else c

/-- The loop `for _ in range(8)` around `crcStep`, as a function of `n`. -/
def crcSteps : Nat → Nat → Nat
  | 0, c => c
  | n + 1, c => crcSteps n (crcStep c)

/-- Processing of a single input byte by `calc_crc24q`
(`crc ^= octet << 16` followed by eight bit iterations). -/
def crcByte (crc octet : Nat) : Nat :=
  crcSteps 8 (crc ^^^ (octet <<< 16))

/-- Function `calc_crc24q` from `src/ntrip.py`: CRC24Q over a byte string,
no initial value, no final XOR, result masked to 24 bits. -/
def calc_crc24q (message : List Nat) : Nat :=
  (message.foldl crcByte 0) &&& 0xFFFFFF

/-- The 3-byte big-endian encoding of a 24-bit CRC value, as appended
to an RTCM3 frame (spec §4.1: trailing CRC bytes, most significant first). -/
def crcBytes (r : Nat) : List Nat :=
  [r >>> 16, (r >>> 8) &&& 0xFF, r &&& 0xFF]

/-- Continuing the CRC fold from state `c` over the three big-endian bytes of `c`. -/
def crcFeedSelf (c : Nat) : Nat := List.foldl crcByte c (crcBytes c)

/-! ### The RTCM3 frame scanner of `Client.iter_data`

The stream handed to `readexactly` is modelled as a `List Nat` of pending
bytes; `readexactly n` returns the first `n` bytes and the remainder, or
fails (IncompleteReadError, an `EOFError`) when fewer than `n` bytes remain.
The inner `while True` scanning loop of `iter_data` is `iterLoop`, with an
explicit fuel bound on loop iterations; the state variable `first` is the
Python `first_byte` (`none` before the first read). -/

/-- The exception classes that `reader.readexactly`/the transport can raise and
that the `except (EOFError, OSError)` handler of `iter_data` names. -/
inductive ReadErr
  | eofError
  | osError
deriving DecidableEq

inductive LoopResult
  | frame (raw rest : List Nat)
  | err (e : ReadErr)
  | outOfFuel
deriving DecidableEq

/-- Read `await reader.readexactly(n)` on a stream with `s` pending bytes. -/
def readexactly (n : Nat) (s : List Nat) : Option (List Nat × List Nat) :=
  if n ≤ s.length then some (s.take n, s.drop n) else none

/-- The inner scanning loop of `Client.iter_data` (src/ntrip.py lines 186-214):
`first` is `first_byte`; a candidate is accepted when `first_byte[0] == 0xd3`,
the next byte equals `0x00`, the length is `(second_byte[0] << 8) | hdr3[0]`,
and the CRC over the reassembled `raw_data` is 0; on CRC failure the loop
`continue`s with `first_byte` unchanged; on a second byte other than `0x00` it
sets `first_byte = second_byte`. -/
def iterLoop : Nat → Option Nat → List Nat → LoopResult
  | 0, _, _ => .outOfFuel
  | fuel + 1, first, s =>
    match first with
    | some fb =>
      if fb = 0xD3 then
        match s with
        | [] => .err .eofError
        | sb :: s1 =>
          if sb = 0x00 then
            match s1 with
            | [] => .err .eofError
            | h3 :: s2 =>
              let size := (sb <<< 8) ||| h3
              match readexactly size s2 with
              | none => .err .eofError
              | some (payload, s3) =>
                match readexactly 3 s3 with
                | none => .err .eofError
                | some (crc, s4) =>
                  let raw := fb :: sb :: h3 :: (payload ++ crc)
                  if calc_crc24q raw = 0 then .frame raw s4
                  else iterLoop fuel first s4
          else iterLoop fuel (some sb) s1
      else
        match s with
        | [] => .err .eofError
        | b :: s1 => iterLoop fuel (some b) s1
    | none =>
      match s with
      | [] => .err .eofError
      | b :: s1 => iterLoop fuel (some b) s1

/-- Outcome of one activation of `Client.iter_data` with a ready reader. -/
inductive IterOutcome
  | yields (raw : List Nat)
  | waits
  | raises (e : ReadErr)
  | outOfFuel
deriving DecidableEq

/-- Which exceptions the `except (EOFError, OSError)` clause of `iter_data`
(src/ntrip.py line 253) catches. -/
def handledErr : ReadErr → Bool
  | .eofError => true
  | .osError => true

/-- Behaviour of `Client.iter_data` on a ready reader with `s` pending bytes: a validated
frame is returned to the caller; an exception from the scanning loop is either
caught by the `except (EOFError, OSError)` handler — which closes the reader,
sets it to `None` and leaves the outer loop waiting — or escapes to the
caller (`raises`). -/
def iter_data (fuel : Nat) (s : List Nat) : IterOutcome :=
  match iterLoop fuel none s with
  | .frame raw _ => .yields raw
  | .err e => if handledErr e then .waits else .raises e
  | .outOfFuel => .outOfFuel

/-- The constant `example_data` from src/ntrip.py lines 28-36: a valid 70-byte RTCM3 frame
with payload length 64. -/
def example_data : List Nat := [
  0xD3, 0x00, 0x40, 0x41, 0x2E, 0x06, 0x44, 0x19, 0x1E, 0xF5, 0x00,
  0xA4, 0x00, 0x00, 0x10, 0xB6, 0x11, 0x08, 0xC2, 0xE8, 0x1D, 0x58,
  0x1A, 0x72, 0xC8, 0x46, 0xCD, 0x1A, 0x08, 0xEA, 0x81, 0x2C, 0x3E,
  0xDC, 0x1B, 0xBB, 0xD9, 0x5D, 0x90, 0x61, 0xE8, 0x05, 0x2F, 0xFB,
  0x89, 0x9A, 0x4D, 0xCC, 0xEB, 0xFE, 0x4C, 0x25, 0x28, 0xFB, 0x6C,
  0xDA, 0x7F, 0x61, 0x8E, 0x60, 0x9C, 0xBF, 0xFB, 0x6A, 0x2D, 0x30,
  0x02, 0x19, 0x8F, 0x73
]

/-! ### A well-formed frame with payload length 256 (C2) -/

/-- A CRC-valid RTCM3 frame with payload length 256: length bytes `0x01 0x00`
(six reserved bits of byte 1 zero, 10-bit length 256), 256 zero payload bytes,
and the matching CRC24Q `0x387BFB`. -/
def frame256 : List Nat :=
  ([0xD3, 0x01, 0x00] ++ List.replicate 256 0) ++ [0x38, 0x7B, 0xFB]

/-! ### One-byte resynchronization after a rejected candidate (C3) -/

/-- A valid zero-payload frame: header `D3 00 00` and its CRC `47 EA 4B`. -/
def goodV : List Nat := [0xD3, 0x00, 0x00, 0x47, 0xEA, 0x4B]

/-- A stream consisting of a single CRC-invalid candidate (`D3 00 06`, the
six payload bytes — which happen to be the valid frame `goodV` — and a wrong
CRC `00 00 00`). -/
def streamC3 : List Nat := [0xD3, 0x00, 0x06] ++ goodV ++ [0x00, 0x00, 0x00]

/-- The scanning algorithm as the spec words it (§4.1): scan byte-by-byte for
`0xD3`; on a candidate check the reserved bits of the second byte, decode the
10-bit length, and validate the CRC; on either rejection resume scanning from
the second byte of the candidate (one-byte resynchronization).  Stated only to
contrast the spec's resynchronization rule with `iterLoop`. -/
def specScan : Nat → List Nat → Option (List Nat × List Nat)
  | 0, _ => none
  | fuel + 1, s =>
    match s with
    | [] => none
    | b :: rest =>
      if b = 0xD3 then
        match rest with
        | [] => none
        | b1 :: rest1 =>
          if b1 &&& 0xFC = 0 then
            match rest1 with
            | [] => none
            | b2 :: rest2 =>
              let size := ((b1 &&& 0x3) <<< 8) ||| b2
              if size + 3 ≤ rest2.length then
                if calc_crc24q (b :: b1 :: b2 :: rest2.take (size + 3)) = 0 then
                  some (b :: b1 :: b2 :: rest2.take (size + 3), rest2.drop (size + 3))
                else specScan fuel rest
              else none
          else specScan fuel rest
      else specScan fuel rest

/-- The frame `example_data` with one corrupted payload byte (index 10: `0x00 → 0x01`). -/
def example_corrupt : List Nat := [
  0xD3, 0x00, 0x40, 0x41, 0x2E, 0x06, 0x44, 0x19, 0x1E, 0xF5, 0x01,
  0xA4, 0x00, 0x00, 0x10, 0xB6, 0x11, 0x08, 0xC2, 0xE8, 0x1D, 0x58,
  0x1A, 0x72, 0xC8, 0x46, 0xCD, 0x1A, 0x08, 0xEA, 0x81, 0x2C, 0x3E,
  0xDC, 0x1B, 0xBB, 0xD9, 0x5D, 0x90, 0x61, 0xE8, 0x05, 0x2F, 0xFB,
  0x89, 0x9A, 0x4D, 0xCC, 0xEB, 0xFE, 0x4C, 0x25, 0x28, 0xFB, 0x6C,
  0xDA, 0x7F, 0x61, 0x8E, 0x60, 0x9C, 0xBF, 0xFB, 0x6A, 0x2D, 0x30,
  0x02, 0x19, 0x8F, 0x73
]

/-! ### `Base.caster_connect` (C6)

One iteration of the `while True` retry loop either fails while opening the
connection, sending the request headers or reading the response
(`OSError`/`asyncio.TimeoutError`, all caught by the same handler), or
obtains the raw response bytes of `reader.read(1024)`.  The environment
provides the outcome of each successive attempt; `closeRaises` says whether
the best-effort `writer.close()`/`wait_closed()` in the failure handler
itself raises (`AttributeError`/`OSError`), which the code swallows. -/

inductive AttemptOutcome
  | connectError
  | response (raw : List Nat)

structure AttemptEnv where
  outcome : AttemptOutcome
  closeRaises : Bool

/-- Split `headers.split(b"\r\n")`. -/
def splitCRLF : List Nat → List (List Nat)
  | [] => [[]]
  | 13 :: 10 :: rest => [] :: splitCRLF rest
  | b :: rest =>
    match splitCRLF rest with
    | [] => [[b]]
    | l :: ls => (b :: l) :: ls

/-- Bytes of `b"200 OK"`. -/
def ok200 : List Nat := [0x32, 0x30, 0x30, 0x20, 0x4F, 0x4B]

/-- Test `line.endswith(b"200 OK")`. -/
def lineOk (line : List Nat) : Bool := ok200.isSuffixOf line

/-- The `for line in headers: if line.endswith(b"200 OK"): break / else raise
ValueError` test: the attempt succeeds iff some response line ends in
`200 OK`; a connect/read error never succeeds. -/
def attemptSucceeds : AttemptOutcome → Bool
  | .connectError => false
  | .response raw => (splitCRLF raw).any lineOk

inductive ConnectResult
  | connected (failedBefore waited : Nat)
  | retrying (failedBefore waited : Nat)
deriving DecidableEq

/-- Fixed reconnect backoff, seconds (src/ntrip.py line 14). -/
def RECONNECT_TIMEOUT : Nat := 10

/-- Loop `Base.caster_connect` run against the environment's successive attempt
outcomes: each failing attempt closes any partially-opened connection
(errors from the close are swallowed, so `closeRaises` influences nothing),
sleeps `RECONNECT_TIMEOUT` seconds and retries; the loop ends only on an
attempt whose response carries a `200 OK` line.  `retrying` means the
environment list ran out with the loop still going: `failedBefore` failed
attempts and `waited` seconds of backoff so far. -/
def caster_connect : List AttemptEnv → ConnectResult
  | [] => .retrying 0 0
  | a :: rest =>
    if attemptSucceeds a.outcome then .connected 0 0
    else
      match caster_connect rest with
      | .connected n w => .connected (n + 1) (w + RECONNECT_TIMEOUT)
      | .retrying n w => .retrying (n + 1) (w + RECONNECT_TIMEOUT)

/-- A two-attempt environment: one connection error, then a response whose
only header line is `200 OK`. -/
def envOkSecond : List AttemptEnv :=
  [⟨.connectError, true⟩, ⟨.response (ok200 ++ [13, 10]), false⟩]

/-! ### `ESP32GPS.gps_data` (C7, C8, C10)

The configuration flags and collaborator objects consulted by `gps_data`
are the environment; the cross-call mutable fields (`ntrip_client.last_gga`
written through `set_gga_sentence`, and `gps.utc_time`) are the state.
`gps.pqtmepe_to_gst` lives in the device-driver collaborator (devices.py,
outside the routing core), so it is an abstract environment function;
`none` models it raising. -/

structure GpsCfg where
  ENABLE_GPS : Bool
  PQTMEPE_TO_GGST : Bool
  ENABLE_SERIAL_CLIENT : Bool
  ENABLE_BLUETOOTH : Bool
  espnowSender : Bool

structure GpsEnv where
  hasNtripClient : Bool
  hasNtripServer : Bool
  serialTxDone : Bool
  blueConnected : Bool
  espnowConnected : Bool
  serialRaises : Bool
  blueRaises : Bool
  espnowRaises : Bool
  serverRaises : Bool
  pqtmepeResult : List Nat → Option (List Nat)

structure GpsState where
  ggaSlot : Option (List Nat)
  utcTime : Option (List Nat)
deriving DecidableEq

inductive SinkRes
  | skipped
  | wrote (v : List Nat)
  | failed
deriving DecidableEq

structure GpsEffects where
  ggaSet : Option (List Nat)
  serial : SinkRes
  blue : SinkRes
  espnow : SinkRes
  server : SinkRes
deriving DecidableEq

inductive GpsErr
  | indexError
  | pqtmepeError
deriving DecidableEq

def bDollar : List Nat := [0x24]
def bCRLF : List Nat := [0x0D, 0x0A]
def bGPGGA : List Nat := [0x24, 0x47, 0x50, 0x47, 0x47, 0x41]
def bGNGGA : List Nat := [0x24, 0x47, 0x4E, 0x47, 0x47, 0x41]
def bGNRMC : List Nat := [0x24, 0x47, 0x4E, 0x52, 0x4D, 0x43]
def bPQTMEPE : List Nat := [0x24, 0x50, 0x51, 0x54, 0x4D, 0x45, 0x50, 0x45]

/-- Split `line.split(b",", maxs)` with at most `maxs` cuts. -/
def splitCommaAux : Nat → List Nat → List (List Nat)
  | _, [] => [[]]
  | 0, l => [l]
  | maxs + 1, 44 :: rest => [] :: splitCommaAux maxs rest
  | maxs + 1, b :: rest =>
    match splitCommaAux (maxs + 1) rest with
    | [] => [[b]]
    | l :: ls => (b :: l) :: ls

/-- Split `line.split(b",", 2)`. -/
def splitComma2 (line : List Nat) : List (List Nat) := splitCommaAux 2 line

/-- The `isNMEA` test of `gps_data`:
`line.startswith(b"$") and line.endswith(b"\r\n")`. -/
def isNMEAb (line : List Nat) : Bool :=
  bDollar.isPrefixOf line && bCRLF.isSuffixOf line

/-- The unguarded NMEA block of `gps_data` (src/main.py lines 143-155): GGA
extraction into the client's slot, UTC-time caching from `$GNRMC`
(`line.split(b",", 2)[1]` — IndexError when the sentence has no comma), and
the `$PQTMEPE` rewrite.  Returns the possibly rewritten line, the new state,
and the value stored to the position-fix slot. -/
def nmeaProcess (cfg : GpsCfg) (env : GpsEnv) (st : GpsState) (line : List Nat) :
    Except GpsErr (List Nat × GpsState × Option (List Nat)) :=
  if isNMEAb line then
    let setGga := (bGPGGA.isPrefixOf line || bGNGGA.isPrefixOf line) && env.hasNtripClient
    let gga : Option (List Nat) := if setGga then some line else none
    let st1 : GpsState := if setGga then ⟨some line, st.utcTime⟩ else st
    if cfg.ENABLE_GPS && cfg.PQTMEPE_TO_GGST then
      match (if bGNRMC.isPrefixOf line then
          match (splitComma2 line)[1]? with
          | none => Except.error GpsErr.indexError
          | some f => Except.ok (⟨st1.ggaSlot, some f⟩ : GpsState)
        else Except.ok st1) with
      | .error e => .error e
      | .ok st2 =>
        if bPQTMEPE.isPrefixOf line then
          match env.pqtmepeResult line with
          | none => .error .pqtmepeError
          | some l2 => .ok (l2, st2, gga)
        else .ok (line, st2, gga)
    else .ok (line, st1, gga)
  else .ok (line, st, none)

/-- Serial sink branch (its own `try`/`except`; `serialRaises` models the
write/flush raising after the flow-control check passed). -/
def serialBranch (cfg : GpsCfg) (env : GpsEnv) (v : List Nat) : SinkRes :=
  if cfg.ENABLE_SERIAL_CLIENT then
    if env.serialTxDone then (if env.serialRaises then .failed else .wrote v) else .skipped
  else .skipped

/-- Bluetooth sink branch (`if cfg.ENABLE_BLUETOOTH and self.blue.is_connected()`). -/
def blueBranch (cfg : GpsCfg) (env : GpsEnv) (v : List Nat) : SinkRes :=
  if cfg.ENABLE_BLUETOOTH then
    if env.blueConnected then (if env.blueRaises then .failed else .wrote v) else .skipped
  else .skipped

/-- ESPNow sink branch (`if self.net.espnow_connected and cfg.ESPNOW_MODE == "sender"`). -/
def espnowBranch (cfg : GpsCfg) (env : GpsEnv) (v : List Nat) : SinkRes :=
  if env.espnowConnected && cfg.espnowSender then
    (if env.espnowRaises then .failed else .wrote v)
  else .skipped

/-- NTRIP-server sink branch (`if not isNMEA and self.ntrip_server`). -/
def serverBranch (env : GpsEnv) (isNMEA : Bool) (v : List Nat) : SinkRes :=
  if !isNMEA && env.hasNtripServer then
    (if env.serverRaises then .failed else .wrote v)
  else .skipped

def noEffects : GpsEffects := ⟨none, .skipped, .skipped, .skipped, .skipped⟩

/-- Router `ESP32GPS.gps_data`: the `if not line: return` guard, the unguarded NMEA
block, then the four per-branch-guarded sink writes on the (possibly
rewritten) line; the server test uses the `isNMEA` flag computed from the
original line. -/
def gps_data (cfg : GpsCfg) (env : GpsEnv) (st : GpsState) (line : List Nat) :
    Except GpsErr (GpsEffects × GpsState) :=
  if line = [] then .ok (noEffects, st)
  else
    match nmeaProcess cfg env st line with
    | .error e => .error e
    | .ok (line2, st2, gga) =>
      .ok (⟨gga, serialBranch cfg env line2, blueBranch cfg env line2,
            espnowBranch cfg env line2, serverBranch env (isNMEAb line) line2⟩, st2)

def cfg0 : GpsCfg := ⟨false, false, false, false, false⟩
def cfgGps : GpsCfg := ⟨true, true, false, false, false⟩
def st0 : GpsState := ⟨none, none⟩
def envServerOnly : GpsEnv :=
  ⟨false, true, false, false, false, false, false, false, false, fun l => some l⟩
def envClientOnly : GpsEnv :=
  ⟨true, false, false, false, false, false, false, false, false, fun l => some l⟩

/-- The same environment with all four sink-write failures turned off. -/
def clearRaises (e : GpsEnv) : GpsEnv :=
  ⟨e.hasNtripClient, e.hasNtripServer, e.serialTxDone, e.blueConnected, e.espnowConnected,
   false, false, false, false, e.pqtmepeResult⟩

/-- All-sinks-off configuration except serial, whose write raises. -/
def envSerRaise : GpsEnv :=
  ⟨false, false, true, false, false, true, false, false, false, fun l => some l⟩

def cfgSer : GpsCfg := ⟨false, false, true, false, false⟩

/-! ### `Client.set_gga_sentence` / `Client.send_gga` (C9)

One round models one iteration of the relay loop: the `set_gga_sentence`
calls that arrived since the previous iteration are applied to `last_gga`
first, then the loop body runs once (`if self.writer and self.last_gga:
write + drain`) and sleeps 5 seconds — also on the `OSError` path, where the
inner handler logs and re-raises and the outer `except (EOFError, OSError)`
sleeps the same 5 seconds and continues. -/

/-- Setter `Client.set_gga_sentence`: plain overwrite of `last_gga`. -/
def set_gga_sentence (_lastGga : Option (List Nat)) (v : List Nat) : Option (List Nat) :=
  some v

/-- Apply a burst of `set_gga_sentence` calls arriving during one interval. -/
def applySets (g : Option (List Nat)) (sets : List (List Nat)) : Option (List Nat) :=
  sets.foldl set_gga_sentence g

structure GgaRound where
  sets : List (List Nat)
  writerPresent : Bool
  writeFails : Bool

inductive GgaEvent
  | wrote (v : List Nat)
  | writeFailed (v : List Nat)
  | idle
deriving DecidableEq

/-- The body of one `send_gga` iteration: write `last_gga` when a writer
exists and a fix is stored; `writeFails` models `write`/`drain` raising
`OSError` (logged and swallowed by the outer handler). -/
def sendGgaEvent (g : Option (List Nat)) (r : GgaRound) : GgaEvent :=
  match g, r.writerPresent with
  | some v, true => if r.writeFails then .writeFailed v else .wrote v
  | _, _ => .idle

/-- Loop `Client.send_gga` over a sequence of rounds: the trace of
(event, seconds slept) per iteration. -/
def send_gga : Option (List Nat) → List GgaRound → List (GgaEvent × Nat)
  | _, [] => []
  | g, r :: rs =>
    let g2 := applySets g r.sets
    (sendGgaEvent g2 r, 5) :: send_gga g2 rs

/-! ### Theorems -/

theorem and_bit24_toNat (x : Nat) : x &&& 0x1000000 = (x.testBit 24).toNat * 2 ^ 24 := by
  have h : (0x1000000 : Nat) = 2 ^ 24 := by norm_num
  rw [h, Nat.and_two_pow]

theorem and_bit24_eval (x : Nat) : x &&& 0x1000000 = x / 0x1000000 % 2 * 0x1000000 := by
  have h : (0x1000000 : Nat) = 2 ^ 24 := by norm_num
  rw [h, Nat.and_two_pow, Nat.testBit_to_div_mod]
  rcases Nat.mod_two_eq_zero_or_one (x / 2 ^ 24) with h2 | h2 <;> rw [h2] <;> simp

theorem and_mask24_eval (x : Nat) : x &&& 0xFFFFFF = x % 0x1000000 := by
  have h : (0xFFFFFF : Nat) = 2 ^ 24 - 1 := by norm_num
  have h2 : (0x1000000 : Nat) = 2 ^ 24 := by norm_num
  rw [h, h2, Nat.and_pow_two_sub_one_eq_mod]

theorem and_mask8_eval (x : Nat) : x &&& 0xFF = x % 0x100 := by
  have h : (0xFF : Nat) = 2 ^ 8 - 1 := by norm_num
  have h2 : (0x100 : Nat) = 2 ^ 8 := by norm_num
  rw [h, h2, Nat.and_pow_two_sub_one_eq_mod]

theorem xor_shiftLeft_distrib (a b n : Nat) :
    (a ^^^ b) <<< n = a <<< n ^^^ b <<< n := by
  apply Nat.eq_of_testBit_eq
  intro i
  simp [Nat.testBit_shiftLeft, Nat.testBit_xor, Bool.and_xor_distrib_left]

theorem xor_shiftRight_distrib (a b n : Nat) :
    (a ^^^ b) >>> n = a >>> n ^^^ b >>> n := by
  apply Nat.eq_of_testBit_eq
  intro i
  simp [Nat.testBit_shiftRight, Nat.testBit_xor]

theorem xor_xor_pair (a b p : Nat) : (a ^^^ p) ^^^ (b ^^^ p) = a ^^^ b := by
  rw [Nat.xor_comm b p, ← Nat.xor_assoc, Nat.xor_assoc a p p, Nat.xor_self, Nat.xor_zero]

theorem xor_mix (a b x y : Nat) : (a ^^^ b) ^^^ (x ^^^ y) = (a ^^^ x) ^^^ (b ^^^ y) := by
  rw [Nat.xor_assoc, ← Nat.xor_assoc b x y, Nat.xor_comm b x, Nat.xor_assoc x b y,
    ← Nat.xor_assoc]

theorem crcStep_eq (c : Nat) :
    crcStep c = (c <<< 1) ^^^ (if (c <<< 1).testBit 24 then 0x1864CFB else 0) := by
  unfold crcStep
  rcases h : (c <<< 1).testBit 24 with _ | _ <;>
    simp [and_bit24_toNat, h, Nat.xor_zero]

theorem crcStep_xor (a b : Nat) : crcStep (a ^^^ b) = crcStep a ^^^ crcStep b := by
  rw [crcStep_eq, crcStep_eq, crcStep_eq, xor_shiftLeft_distrib]
  rcases ha : (a <<< 1).testBit 24 with _ | _ <;>
    rcases hb : (b <<< 1).testBit 24 with _ | _ <;>
      simp [Nat.testBit_xor, ha, hb]
  · rw [Nat.xor_assoc]
  · rw [Nat.xor_assoc, Nat.xor_comm (b <<< 1) 0x1864CFB, ← Nat.xor_assoc]
  · rw [xor_xor_pair]

theorem crcSteps_xor (n : Nat) : ∀ a b, crcSteps n (a ^^^ b) = crcSteps n a ^^^ crcSteps n b := by
  induction n with
  | zero => intro a b; rfl
  | succ n ih => intro a b; rw [crcSteps, crcSteps, crcSteps, crcStep_xor, ih]

theorem crcByte_xor (a b x y : Nat) :
    crcByte (a ^^^ b) (x ^^^ y) = crcByte a x ^^^ crcByte b y := by
  unfold crcByte
  rw [xor_shiftLeft_distrib, xor_mix, crcSteps_xor]

theorem xor_lt_two_pow {a b n : Nat} (ha : a < 2 ^ n) (hb : b < 2 ^ n) : a ^^^ b < 2 ^ n := by
  apply Nat.lt_pow_two_of_testBit
  intro i hi
  have hia : a < 2 ^ i := lt_of_lt_of_le ha (Nat.pow_le_pow_right (by norm_num) hi)
  have hib : b < 2 ^ i := lt_of_lt_of_le hb (Nat.pow_le_pow_right (by norm_num) hi)
  rw [Nat.testBit_xor, Nat.testBit_lt_two_pow hia, Nat.testBit_lt_two_pow hib]
  rfl

theorem crcStep_lt {c : Nat} (h : c < 2 ^ 24) : crcStep c < 2 ^ 24 := by
  have h1 : c <<< 1 < 2 ^ 25 := by
    have := Nat.shiftLeft_lt (m := 1) h
    norm_num at this
    exact this
  rw [crcStep_eq]
  rcases hb : (c <<< 1).testBit 24 with _ | _
  · rw [if_neg (by simp), Nat.xor_zero]
    apply Nat.lt_pow_two_of_testBit
    intro i hi
    rcases Nat.eq_or_lt_of_le hi with rfl | hi
    · exact hb
    · exact Nat.testBit_lt_two_pow (lt_of_lt_of_le h1 (Nat.pow_le_pow_right (by norm_num) hi))
  · rw [if_pos rfl]
    apply Nat.lt_pow_two_of_testBit
    intro i hi
    rcases Nat.eq_or_lt_of_le hi with rfl | hi
    · rw [Nat.testBit_xor, hb]
      decide
    · have hp : (0x1864CFB : Nat) < 2 ^ i :=
        lt_of_lt_of_le (by norm_num) (Nat.pow_le_pow_right (by norm_num) hi)
      rw [Nat.testBit_xor,
        Nat.testBit_lt_two_pow (lt_of_lt_of_le h1 (Nat.pow_le_pow_right (by norm_num) hi)),
        Nat.testBit_lt_two_pow hp]
      rfl

theorem crcSteps_lt (n : Nat) : ∀ c, c < 2 ^ 24 → crcSteps n c < 2 ^ 24 := by
  induction n with
  | zero => intro c hc; exact hc
  | succ n ih => intro c hc; exact ih _ (crcStep_lt hc)

theorem crcByte_lt {s b : Nat} (hs : s < 2 ^ 24) (hb : b < 256) : crcByte s b < 2 ^ 24 := by
  unfold crcByte
  apply crcSteps_lt
  apply xor_lt_two_pow hs
  have := Nat.shiftLeft_lt (m := 16) (show b < 2 ^ 8 from hb)
  norm_num at this
  exact this

theorem foldl_crcByte_lt :
    ∀ (m : List Nat) (s : Nat), s < 2 ^ 24 → (∀ b ∈ m, b < 256) → m.foldl crcByte s < 2 ^ 24 := by
  intro m
  induction m with
  | nil => intro s hs _; exact hs
  | cons b m ih =>
    intro s hs hm
    rw [List.foldl_cons]
    exact ih _ (crcByte_lt hs (hm b (by simp))) (fun x hx => hm x (by simp [hx]))

theorem calc_crc24q_eq_foldl (m : List Nat) (h : ∀ b ∈ m, b < 256) :
    calc_crc24q m = m.foldl crcByte 0 := by
  unfold calc_crc24q
  have hm : m.foldl crcByte 0 < 2 ^ 24 := foldl_crcByte_lt m 0 (by norm_num) h
  have h24 : (0xFFFFFF : Nat) = 2 ^ 24 - 1 := by norm_num
  rw [h24, Nat.and_pow_two_sub_one_of_lt_two_pow hm]

theorem crcFeedSelf_xor (a b : Nat) :
    crcFeedSelf (a ^^^ b) = crcFeedSelf a ^^^ crcFeedSelf b := by
  show List.foldl crcByte _ _ = _
  rw [crcBytes, List.foldl_cons, List.foldl_cons, List.foldl_cons, List.foldl_nil,
    xor_shiftRight_distrib, xor_shiftRight_distrib, Nat.and_xor_distrib_right,
    Nat.and_xor_distrib_right, crcByte_xor, crcByte_xor, crcByte_xor]
  rfl

set_option maxRecDepth 4000 in
theorem crcFeedSelf_two_pow : ∀ i : Fin 24, crcFeedSelf (2 ^ (i : Nat)) = 0 := by decide

theorem two_pow_xor_eq_add {n x : Nat} (h : x < 2 ^ n) : 2 ^ n ^^^ x = 2 ^ n + x := by
  apply Nat.eq_of_testBit_eq
  intro i
  rcases Nat.lt_trichotomy i n with hi | rfl | hi
  · rw [Nat.testBit_xor, Nat.testBit_two_pow_add_gt hi,
      Nat.testBit_two_pow_of_ne (Nat.ne_of_gt hi), Bool.false_xor]
  · rw [Nat.testBit_xor, Nat.testBit_two_pow_add_eq, Nat.testBit_two_pow_self,
      Nat.testBit_lt_two_pow h]
    rfl
  · have hx : x < 2 ^ i := lt_of_lt_of_le h (Nat.pow_le_pow_right (by norm_num) (le_of_lt hi))
    have hs : 2 ^ n + x < 2 ^ i := by
      have h1 : 2 ^ n + x < 2 ^ (n + 1) := by
        have := Nat.pow_succ 2 n
        omega
      exact lt_of_lt_of_le h1 (Nat.pow_le_pow_right (by norm_num) hi)
    rw [Nat.testBit_xor, Nat.testBit_two_pow_of_ne (Nat.ne_of_lt hi),
      Nat.testBit_lt_two_pow hx, Nat.testBit_lt_two_pow hs]
    rfl

theorem crcFeedSelf_eq_zero : ∀ n, n ≤ 24 → ∀ c, c < 2 ^ n → crcFeedSelf c = 0 := by
  intro n
  induction n with
  | zero =>
    intro _ c hc
    have hc0 : c = 0 := by omega
    subst hc0
    decide
  | succ n ih =>
    intro hn c hc
    by_cases h : c < 2 ^ n
    · exact ih (by omega) c h
    · push_neg at h
      have hx : c - 2 ^ n < 2 ^ n := by
        have := Nat.pow_succ 2 n
        omega
      have hceq : c = 2 ^ n ^^^ (c - 2 ^ n) := by
        rw [two_pow_xor_eq_add hx]
        omega
      rw [hceq, crcFeedSelf_xor, crcFeedSelf_two_pow ⟨n, by omega⟩, ih (by omega) _ hx]
      decide

/-- Appending the big-endian CRC of a byte string drives the CRC of the whole
string to zero; shared by the C1 and C2 developments. -/
theorem crc_append_eq_zero (m : List Nat) (h : ∀ b ∈ m, b < 256) :
    calc_crc24q (m ++ crcBytes (calc_crc24q m)) = 0 := by
  have hr : m.foldl crcByte 0 < 2 ^ 24 := foldl_crcByte_lt m 0 (by norm_num) h
  rw [calc_crc24q_eq_foldl m h]
  unfold calc_crc24q
  rw [List.foldl_append]
  have hz : crcFeedSelf (m.foldl crcByte 0) = 0 := crcFeedSelf_eq_zero 24 le_rfl _ hr
  unfold crcFeedSelf at hz
  rw [hz]
  rfl

/-- C1: for every byte sequence `m`, appending the 3-byte big-endian encoding of
`calc_crc24q m` yields a message on which `calc_crc24q` returns 0, so a message
ending with its own CRC24Q value is valid (CRC over the entire message,
trailing CRC included, equals 0). -/
theorem crc24q_append_self (m : List Nat) (h : ∀ b ∈ m, b < 256) :
    calc_crc24q (m ++ crcBytes (calc_crc24q m)) = 0 :=
  crc_append_eq_zero m h

/-- Witness for `crc24q_append_self` at a concrete message. -/
theorem crc24q_append_self_witness :
    (∀ b ∈ [0xD3, 0x00, 0x01, 0xAB], b < 256) ∧
      calc_crc24q ([0xD3, 0x00, 0x01, 0xAB] ++
        crcBytes (calc_crc24q [0xD3, 0x00, 0x01, 0xAB])) = 0 :=
  ⟨by decide, crc24q_append_self [0xD3, 0x00, 0x01, 0xAB] (by decide)⟩

theorem readexactly_some {n : Nat} {s : List Nat} {pr : List Nat × List Nat}
    (h : readexactly n s = some pr) :
    pr.1 = s.take n ∧ pr.2 = s.drop n ∧ pr.1.length = n := by
  unfold readexactly at h
  split at h
  · cases h
    refine ⟨rfl, rfl, ?_⟩
    simp [List.length_take]
    omega
  · cases h

/-- Every frame produced by the scanning loop starts with the preamble, has the
length encoded in its bytes 1-2 plus 6 bytes overall, and has CRC24Q zero. -/
theorem iterLoop_frame_inv :
    ∀ (fuel : Nat) (first : Option Nat) (s raw rest : List Nat),
      iterLoop fuel first s = .frame raw rest →
      raw.head? = some 0xD3 ∧
      raw.length = ((raw.getD 1 0) <<< 8 ||| (raw.getD 2 0)) + 6 ∧
      calc_crc24q raw = 0 := by
  intro fuel
  induction fuel with
  | zero =>
    intro first s raw rest h
    simp [iterLoop] at h
  | succ fuel ih =>
    intro first s raw rest h
    unfold iterLoop at h
    rcases first with _ | fb <;> dsimp only at h
    · rcases s with _ | ⟨b, s1⟩ <;> dsimp only at h
      · simp at h
      · exact ih _ _ _ _ h
    · by_cases hfb : fb = 0xD3
      · rw [if_pos hfb] at h
        subst hfb
        rcases s with _ | ⟨sb, s1⟩ <;> dsimp only at h
        · simp at h
        · by_cases hsb : sb = 0x00
          · rw [if_pos hsb] at h
            rcases s1 with _ | ⟨h3, s2⟩ <;> dsimp only at h
            · simp at h
            · rcases hre : readexactly ((sb <<< 8) ||| h3) s2 with _ | ⟨payload, s3⟩
              · rw [hre] at h; simp at h
              · rw [hre] at h
                dsimp only at h
                rcases hre3 : readexactly 3 s3 with _ | ⟨crc, s4⟩
                · rw [hre3] at h; simp at h
                · rw [hre3] at h
                  dsimp only at h
                  by_cases hcrc :
                      calc_crc24q (0xD3 :: sb :: h3 :: (payload ++ crc)) = 0
                  · rw [if_pos hcrc] at h
                    cases h
                    obtain ⟨-, -, hlp⟩ := readexactly_some hre
                    obtain ⟨-, -, hlc⟩ := readexactly_some hre3
                    have hlp2 : payload.length = sb <<< 8 ||| h3 := hlp
                    have hlc2 : crc.length = 3 := hlc
                    refine ⟨rfl, ?_, hcrc⟩
                    simp only [List.getD_cons_succ, List.getD_cons_zero, List.length_cons,
                      List.length_append, hlp2, hlc2]
                  · rw [if_neg hcrc] at h
                    exact ih _ _ _ _ h
          · rw [if_neg hsb] at h
            exact ih _ _ _ _ h
      · rw [if_neg hfb] at h
        rcases s with _ | ⟨b, s1⟩ <;> dsimp only at h
        · simp at h
        · exact ih _ _ _ _ h

/-- CRC of the hard-coded example frame is zero. -/
theorem example_data_crc : calc_crc24q example_data = 0 := by
  simp [calc_crc24q, crcByte, crcSteps, crcStep, example_data, and_bit24_eval, and_mask24_eval]

set_option maxRecDepth 4000 in
/-- Feeding the example frame to the scanner yields exactly that frame. -/
theorem iter_data_example : iter_data 3 example_data = .yields example_data := by
  have hc := example_data_crc
  simp only [example_data] at hc
  simp [iter_data, iterLoop, readexactly, example_data, hc]

/-- C5: every byte string returned by `Client.iter_data` starts with `0xD3`,
has total length equal to the payload length encoded in bytes 1-2 plus 6, and
has `calc_crc24q` zero over the whole string. -/
theorem iter_data_frame_invariant (fuel : Nat) (s raw : List Nat)
    (h : iter_data fuel s = .yields raw) :
    raw.head? = some 0xD3 ∧
    raw.length = ((raw.getD 1 0) <<< 8 ||| (raw.getD 2 0)) + 6 ∧
    calc_crc24q raw = 0 := by
  unfold iter_data at h
  rcases hl : iterLoop fuel none s with ⟨raw2, rest⟩ | e | _ <;> rw [hl] at h
  · dsimp only at h
    cases h
    exact iterLoop_frame_inv fuel none s raw rest hl
  · cases e <;> simp [handledErr] at h
  · simp at h

/-- Witness for `iter_data_frame_invariant` on the example frame. -/
theorem iter_data_frame_invariant_witness :
    example_data.head? = some 0xD3 ∧
    example_data.length = ((example_data.getD 1 0) <<< 8 ||| (example_data.getD 2 0)) + 6 ∧
    calc_crc24q example_data = 0 :=
  iter_data_frame_invariant 3 example_data example_data iter_data_example

/-- C4 (amended): neither read errors nor CRC mismatches surface to the caller
of `iter_data` as failures — every `EOFError`/`OSError` raised by the scanning
loop is caught by the `except` handler, which closes and clears the reader and
leaves the outer loop waiting, and a CRC mismatch merely continues the scan. -/
theorem iter_data_errors_handled (fuel : Nat) (s : List Nat) :
    (∀ e, iter_data fuel s ≠ .raises e) ∧
    (∀ e, iterLoop fuel none s = .err e → iter_data fuel s = .waits) := by
  have hmain : ∀ e, iterLoop fuel none s = .err e → iter_data fuel s = .waits := by
    intro e heq
    unfold iter_data
    rw [heq]
    cases e <;> rfl
  refine ⟨?_, hmain⟩
  intro e h
  unfold iter_data at h
  rcases hl : iterLoop fuel none s with ⟨raw, rest⟩ | e2 | _ <;> rw [hl] at h
  · exact IterOutcome.noConfusion h
  · cases e2 <;> simp [handledErr] at h
  · exact IterOutcome.noConfusion h

/-- C4 counterexample: a stream that ends mid-frame (header promises a 5-byte
payload, none arrives) does not propagate an I/O failure to the caller —
`iter_data` handles it internally and waits. -/
theorem iter_data_midframe_eof_not_raised :
    iter_data 4 [0xD3, 0x00, 0x05] = .waits ∧
    iter_data 4 [0xD3, 0x00, 0x05] ≠ .raises .eofError ∧
    iter_data 4 [0xD3, 0x00, 0x05] ≠ .raises .osError := by decide

/-- Witness for `iter_data_errors_handled` on a concrete mid-frame EOF. -/
theorem iter_data_errors_handled_witness :
    iter_data 4 [0xD3, 0x00, 0x05] = .waits :=
  (iter_data_errors_handled 4 [0xD3, 0x00, 0x05]).2 .eofError (by decide)

theorem crc_chunk0 : List.foldl crcByte 0 [0xD3, 0x01, 0x00] = 2188547 := by
  simp [crcByte, crcSteps, crcStep, and_bit24_eval]

theorem crc_chunk1 : List.foldl crcByte 2188547 (List.replicate 64 0) = 12874898 := by
  simp [crcByte, crcSteps, crcStep, and_bit24_eval, List.replicate]

theorem crc_chunk2 : List.foldl crcByte 12874898 (List.replicate 64 0) = 8687871 := by
  simp [crcByte, crcSteps, crcStep, and_bit24_eval, List.replicate]

theorem crc_chunk3 : List.foldl crcByte 8687871 (List.replicate 64 0) = 14703418 := by
  simp [crcByte, crcSteps, crcStep, and_bit24_eval, List.replicate]

theorem crc_chunk4 : List.foldl crcByte 14703418 (List.replicate 64 0) = 3701755 := by
  simp [crcByte, crcSteps, crcStep, and_bit24_eval, List.replicate]

theorem frame256_body_crc :
    calc_crc24q ([0xD3, 0x01, 0x00] ++ List.replicate 256 0) = 3701755 := by
  have h : List.replicate 256 (0 : Nat) =
      List.replicate 64 0 ++ (List.replicate 64 0 ++ (List.replicate 64 0 ++ List.replicate 64 0)) := by
    simp [← List.replicate_add]
  rw [calc_crc24q, h, List.foldl_append, List.foldl_append, List.foldl_append,
    List.foldl_append, crc_chunk0, crc_chunk1, crc_chunk2, crc_chunk3, crc_chunk4,
    and_mask24_eval]

theorem frame256_crc : calc_crc24q frame256 = 0 := by
  have hb : ∀ b ∈ [0xD3, 0x01, 0x00] ++ List.replicate 256 0, b < 256 := by
    intro b hb
    rcases List.mem_append.1 hb with h | h
    · simp at h
      rcases h with h | h | h <;> omega
    · rw [List.eq_of_mem_replicate h]
      norm_num
  have h0 := crc_append_eq_zero ([0xD3, 0x01, 0x00] ++ List.replicate 256 0) hb
  rw [frame256_body_crc] at h0
  have hcb : crcBytes 3701755 = [0x38, 0x7B, 0xFB] := by
    simp [crcBytes, and_mask8_eval]
  rw [hcb] at h0
  exact h0

set_option maxRecDepth 4000 in
/-- The scanner consumes the whole length-256 frame without yielding it:
the second length byte `0x01` fails the `== 0x00` test, the scan resumes
one byte at a time and runs off the end of the stream. -/
theorem frame256_scan : iter_data 300 frame256 = .waits := by
  simp [iter_data, iterLoop, readexactly, frame256, List.replicate, handledErr]

/-- C2: a CRC-valid frame with ten-bit payload length 256 (second byte `0x01`,
reserved bits zero) is never decoded by `Client.iter_data` — the code requires
the second byte to be exactly `0x00`, so payload lengths 256-1023 are
rejected. -/
theorem frame256_rejected :
    calc_crc24q frame256 = 0 ∧
    frame256.head? = some 0xD3 ∧
    frame256.getD 1 0 = 0x01 ∧
    frame256.getD 1 0 &&& 0xFC = 0 ∧
    ((frame256.getD 1 0 &&& 0x3) <<< 8 ||| frame256.getD 2 0) = 256 ∧
    frame256.length = 256 + 6 ∧
    iter_data 300 frame256 = .waits := by
  refine ⟨frame256_crc, by decide, by decide, by decide, by decide, ?_, frame256_scan⟩
  simp only [frame256, List.length_append, List.length_replicate, List.length_cons,
    List.length_nil]

theorem goodV_crc : calc_crc24q goodV = 0 := by
  simp [calc_crc24q, crcByte, crcSteps, crcStep, goodV, and_bit24_eval, and_mask24_eval]

theorem streamC3_crc : calc_crc24q streamC3 = 11220720 := by
  simp [calc_crc24q, crcByte, crcSteps, crcStep, streamC3, goodV, and_bit24_eval,
    and_mask24_eval]

theorem and_mask2_eval (x : Nat) : x &&& 0x3 = x % 4 := by
  have h : (0x3 : Nat) = 2 ^ 2 - 1 := by norm_num
  have h2 : (4 : Nat) = 2 ^ 2 := by norm_num
  rw [h, h2, Nat.and_pow_two_sub_one_eq_mod]

theorem and_res6_eval (x : Nat) : x &&& 0xFC = x % 0x100 ^^^ x % 4 := by
  have h : (0xFC : Nat) = 0xFF ^^^ 0x3 := by decide
  rw [h, Nat.and_xor_distrib_left, and_mask8_eval, and_mask2_eval]

set_option maxRecDepth 4000 in
/-- C3 counterexample: on a CRC failure the code does not resume at the
candidate's second byte.  `streamC3` is a CRC-invalid candidate whose payload
bytes are themselves the valid frame `goodV`: the spec's one-byte
resynchronization finds and yields `goodV`, while `iter_data` has already
consumed those bytes and ends up waiting, yielding nothing. -/
theorem crc_fail_discards_bytes :
    calc_crc24q goodV = 0 ∧
    specScan 20 streamC3 = some (goodV, [0x00, 0x00, 0x00]) ∧
    iter_data 20 streamC3 = .waits := by
  have hg := goodV_crc
  simp only [goodV] at hg
  have hs := streamC3_crc
  simp [streamC3, goodV] at hs
  refine ⟨goodV_crc, ?_, ?_⟩
  · simp [specScan, streamC3, goodV, and_res6_eval, and_mask2_eval, hg, hs]
  · simp [iter_data, iterLoop, readexactly, handledErr, streamC3, goodV, hg, hs]

theorem example_corrupt_crc : calc_crc24q example_corrupt = 4412231 := by
  simp [calc_crc24q, crcByte, crcSteps, crcStep, example_corrupt, and_bit24_eval,
    and_mask24_eval]

set_option maxRecDepth 4000 in
/-- C3 (amended): when the second byte of a candidate is not `0x00` the scanner
treats that byte as the new first candidate (one-byte resynchronization);
when the CRC check fails it instead keeps the stale preamble byte as the
candidate and continues after the already-consumed candidate bytes,
discarding them; still, for a one-byte-corrupted frameA followed by a valid
frameB, the decoder yields frameB. -/
theorem iterLoop_resync_behavior :
    (∀ fuel sb s, sb ≠ 0x00 →
        iterLoop (fuel + 1) (some 0xD3) (sb :: s) = iterLoop fuel (some sb) s) ∧
    (∀ fuel h3 s2,
        ((0x00 <<< 8) ||| h3) + 3 ≤ s2.length →
        calc_crc24q (0xD3 :: 0x00 :: h3 ::
          (s2.take ((0x00 <<< 8) ||| h3) ++ (s2.drop ((0x00 <<< 8) ||| h3)).take 3)) ≠ 0 →
        iterLoop (fuel + 1) (some 0xD3) (0x00 :: h3 :: s2) =
          iterLoop fuel (some 0xD3) ((s2.drop ((0x00 <<< 8) ||| h3)).drop 3)) ∧
    iter_data 6 (example_corrupt ++ example_data) = .yields example_data := by
  refine ⟨?_, ?_, ?_⟩
  · intro fuel sb s h
    simp [iterLoop, h]
  · intro fuel h3 s2 hlen hcrc
    have h1 : (0x00 <<< 8) ||| h3 ≤ s2.length := by omega
    have h2 : 3 ≤ (s2.drop ((0x00 <<< 8) ||| h3)).length := by
      rw [List.length_drop]
      omega
    simp only [iterLoop, readexactly, if_true]
    rw [if_pos h1]
    dsimp only
    rw [if_pos h2]
    dsimp only
    rw [if_neg hcrc]
  · have hc := example_corrupt_crc
    simp only [example_corrupt] at hc
    have hd := example_data_crc
    simp only [example_data] at hd
    simp [iter_data, iterLoop, readexactly, example_corrupt, example_data, hc, hd]

/-- Witness for `iterLoop_resync_behavior` at concrete inputs. -/
theorem iterLoop_resync_behavior_witness :
    iterLoop 4 (some 0xD3) (0x05 :: [1, 2]) = iterLoop 3 (some 0x05) [1, 2] :=
  iterLoop_resync_behavior.1 3 0x05 [1, 2] (by decide)

theorem caster_connect_connected :
    ∀ (env : List AttemptEnv) (n w : Nat), caster_connect env = .connected n w →
      w = RECONNECT_TIMEOUT * n ∧
      (∃ a, env[n]? = some a ∧ attemptSucceeds a.outcome = true) ∧
      (∀ j b, j < n → env[j]? = some b → attemptSucceeds b.outcome = false) := by
  intro env
  induction env with
  | nil =>
    intro n w h
    simp [caster_connect] at h
  | cons a rest ih =>
    intro n w h
    unfold caster_connect at h
    by_cases hs : attemptSucceeds a.outcome = true
    · rw [if_pos hs] at h
      cases h
      refine ⟨by norm_num, ⟨a, by simp, hs⟩, ?_⟩
      intro j b hj
      omega
    · rw [if_neg hs] at h
      rcases hr : caster_connect rest with ⟨n2, w2⟩ | ⟨n2, w2⟩ <;> rw [hr] at h <;>
        cases h
      obtain ⟨hw, ⟨a2, ha2, hs2⟩, hprev⟩ := ih n2 w2 hr
      refine ⟨by rw [hw]; ring, ⟨a2, by simpa using ha2, hs2⟩, ?_⟩
      intro j b hj hb
      rcases j with _ | j
      · simp at hb
        rw [← hb]
        simpa using hs
      · simp at hb
        exact hprev j b (by omega) hb

theorem caster_connect_all_fail :
    ∀ env : List AttemptEnv, (∀ a ∈ env, attemptSucceeds a.outcome = false) →
      caster_connect env = .retrying env.length (RECONNECT_TIMEOUT * env.length) := by
  intro env
  induction env with
  | nil => intro _; rfl
  | cons a rest ih =>
    intro h
    unfold caster_connect
    rw [if_neg (by simp [h a (by simp)]), ih (fun b hb => h b (by simp [hb]))]
    simp [List.length_cons]
    ring

theorem caster_connect_close_independent :
    ∀ env env2 : List AttemptEnv,
      env.map AttemptEnv.outcome = env2.map AttemptEnv.outcome →
      caster_connect env = caster_connect env2 := by
  intro env
  induction env with
  | nil =>
    intro env2 h
    rcases env2 with _ | ⟨b, rest2⟩
    · rfl
    · simp at h
  | cons a rest ih =>
    intro env2 h
    rcases env2 with _ | ⟨b, rest2⟩
    · simp at h
    · simp at h
      obtain ⟨hab, hrest⟩ := h
      unfold caster_connect
      rw [hab, ih rest2 hrest]

/-- C6: `caster_connect` returns only once a handshake response contains a
line ending in `200 OK`; every kind of failure — connect error or a response
without such a line, authentication rejection included — incurs the fixed
10-second backoff and another attempt, unboundedly, and the secondary errors
of the best-effort close are discarded (the outcome is independent of the
`closeRaises` flags). -/
theorem caster_connect_spec (env : List AttemptEnv) :
    (∀ n w, caster_connect env = .connected n w →
      w = RECONNECT_TIMEOUT * n ∧
      (∃ a, env[n]? = some a ∧ attemptSucceeds a.outcome = true) ∧
      (∀ j b, j < n → env[j]? = some b → attemptSucceeds b.outcome = false)) ∧
    ((∀ a ∈ env, attemptSucceeds a.outcome = false) →
      caster_connect env = .retrying env.length (RECONNECT_TIMEOUT * env.length)) ∧
    (∀ env2 : List AttemptEnv,
      env.map AttemptEnv.outcome = env2.map AttemptEnv.outcome →
      caster_connect env = caster_connect env2) :=
  ⟨fun n w h => caster_connect_connected env n w h,
   caster_connect_all_fail env,
   caster_connect_close_independent env⟩

/-- Witness for `caster_connect_spec`: with `envOkSecond` the session connects
on the second attempt after one 10-second backoff. -/
theorem caster_connect_spec_witness :
    10 = RECONNECT_TIMEOUT * 1 ∧
    (∃ a, envOkSecond[1]? = some a ∧ attemptSucceeds a.outcome = true) ∧
    (∀ j b, j < 1 → envOkSecond[j]? = some b → attemptSucceeds b.outcome = false) :=
  (caster_connect_spec envOkSecond).1 1 10 (by decide)

/-- C10: routing an empty line is a complete no-op: no sink writes, no
position-fix update, the state is returned unchanged and no error occurs. -/
theorem gps_data_empty_noop (cfg : GpsCfg) (env : GpsEnv) (st : GpsState) :
    gps_data cfg env st [] = .ok (noEffects, st) := rfl

/-- C7 counterexample: the empty line is Opaque (no `$` prefix) yet is not
forwarded to the server sink although a server object exists, and a `$GPGGA`
line lacking the CRLF terminator is not stored to the position-fix slot
although a client exists. -/
theorem gps_data_classification_cex :
    (gps_data cfg0 envServerOnly st0 [] = .ok (noEffects, st0) ∧
      noEffects.server = .skipped ∧ envServerOnly.hasNtripServer = true) ∧
    (gps_data cfg0 envClientOnly st0 bGPGGA = .ok (noEffects, st0) ∧
      noEffects.ggaSet = none ∧ envClientOnly.hasNtripClient = true ∧ bGPGGA ≠ []) := by
  refine ⟨⟨rfl, rfl, rfl⟩, ⟨?_, rfl, rfl, by decide⟩⟩
  rfl

/-- C8 counterexample: with `ENABLE_GPS` and `PQTMEPE_TO_GGST` set, the
sentence `b"$GNRMC\r\n"` (no comma) raises IndexError in the unguarded
UTC-time extraction `line.split(b",", 2)[1]`; the error escapes `gps_data`
and no sink branch runs for that sentence. -/
theorem gps_data_unguarded_cex :
    gps_data cfgGps envServerOnly st0 (bGNRMC ++ bCRLF) = .error .indexError := by
  rfl

/-- Two incomparable sentence identifiers cannot both be prefixes of a line. -/
theorem not_prefix_pair {p q line : List Nat} (hp : p.isPrefixOf line = true)
    (hpq : p.isPrefixOf q = false) (hqp : q.isPrefixOf p = false) :
    q.isPrefixOf line = false := by
  by_contra h
  rw [Bool.not_eq_false, List.isPrefixOf_iff_prefix] at h
  rw [List.isPrefixOf_iff_prefix] at hp
  rcases List.prefix_or_prefix_of_prefix hp h with h2 | h2 <;>
    rw [← List.isPrefixOf_iff_prefix] at h2
  · rw [h2] at hpq
    cases hpq
  · rw [h2] at hqp
    cases hqp

/-- Running `nmeaProcess` on an NMEA-classified GGA sentence: the raw line is stored
iff a client is configured, no transform applies and no error occurs. -/
theorem nmeaProcess_gga (cfg : GpsCfg) (env : GpsEnv) (st : GpsState) (line : List Nat)
    (h1 : isNMEAb line = true)
    (h2 : (bGPGGA.isPrefixOf line || bGNGGA.isPrefixOf line) = true) :
    nmeaProcess cfg env st line =
      .ok (line, (if env.hasNtripClient then ⟨some line, st.utcTime⟩ else st),
        (if env.hasNtripClient then some line else none)) := by
  have hrmc : bGNRMC.isPrefixOf line = false := by
    rcases Bool.or_eq_true_iff.1 h2 with h | h
    · exact not_prefix_pair h (by decide) (by decide)
    · exact not_prefix_pair h (by decide) (by decide)
  have hpq : bPQTMEPE.isPrefixOf line = false := by
    rcases Bool.or_eq_true_iff.1 h2 with h | h
    · exact not_prefix_pair h (by decide) (by decide)
    · exact not_prefix_pair h (by decide) (by decide)
  unfold nmeaProcess
  rw [if_pos h1]
  simp only [h2, Bool.true_and, hrmc, hpq]
  rcases hgps : cfg.ENABLE_GPS && cfg.PQTMEPE_TO_GGST with _ | _ <;>
    rcases hc : env.hasNtripClient with _ | _ <;> simp [hc]

set_option maxRecDepth 2000 in
/-- C7 (amended): for every nonempty line, the operative classification is
`isNMEAb` (starts with `$`, ends with CRLF).  An NMEA-classified GGA sentence
is stored raw to the position-fix slot iff a client is configured (no-op
otherwise) and never reaches the server sink; no NMEA line ever reaches the
server sink; a nonempty Opaque line is handed to the server branch exactly
when a server object exists (and is written verbatim when that branch's own
write does not fail). -/
theorem gps_data_routing (cfg : GpsCfg) (env : GpsEnv) (st : GpsState) (line : List Nat)
    (hne : line ≠ []) :
    (isNMEAb line = true →
      (bGPGGA.isPrefixOf line || bGNGGA.isPrefixOf line) = true →
      ∃ eff st2, gps_data cfg env st line = .ok (eff, st2) ∧
        eff.ggaSet = (if env.hasNtripClient then some line else none) ∧
        st2.ggaSlot = (if env.hasNtripClient then some line else st.ggaSlot) ∧
        eff.server = .skipped) ∧
    (∀ eff st2, gps_data cfg env st line = .ok (eff, st2) →
      isNMEAb line = true → eff.server = .skipped) ∧
    (isNMEAb line = false →
      gps_data cfg env st line =
        .ok (⟨none, serialBranch cfg env line, blueBranch cfg env line,
              espnowBranch cfg env line, serverBranch env false line⟩, st) ∧
      (serverBranch env false line ≠ .skipped ↔ env.hasNtripServer = true) ∧
      (env.hasNtripServer = true → env.serverRaises = false →
        serverBranch env false line = .wrote line)) := by
  refine ⟨?_, ?_, ?_⟩
  · intro hN hGga
    rw [gps_data, if_neg hne, nmeaProcess_gga cfg env st line hN hGga]
    dsimp only
    refine ⟨_, _, rfl, rfl, ?_, ?_⟩
    · rcases hc : env.hasNtripClient with _ | _ <;> simp [hc]
    · rw [serverBranch, hN]
      rfl
  · intro eff st2 h hN
    rw [gps_data, if_neg hne] at h
    rcases hn : nmeaProcess cfg env st line with e | ⟨l2, st3, gga⟩ <;> rw [hn] at h <;>
      dsimp only at h
    · cases h
    · cases h
      rw [serverBranch, hN]
      rfl
  · intro hN
    have hnp : nmeaProcess cfg env st line = .ok (line, st, none) := by
      rw [nmeaProcess, if_neg (by simp [hN])]
    refine ⟨?_, ?_, ?_⟩
    · rw [gps_data, if_neg hne, hnp]
      dsimp only
      rw [hN]
    · rw [serverBranch]
      rcases hs : env.hasNtripServer with _ | _
      · simp
      · rcases hr : env.serverRaises with _ | _ <;> simp
    · intro hs hr
      rw [serverBranch, hs, hr]
      rfl

/-- Witness for `gps_data_routing`: a one-byte Opaque line with only a server
configured. -/
theorem gps_data_routing_witness :
    gps_data cfg0 envServerOnly st0 [0x41] =
      .ok (⟨none, serialBranch cfg0 envServerOnly [0x41], blueBranch cfg0 envServerOnly [0x41],
            espnowBranch cfg0 envServerOnly [0x41], serverBranch envServerOnly false [0x41]⟩,
        st0) ∧
    (serverBranch envServerOnly false [0x41] ≠ .skipped ↔ envServerOnly.hasNtripServer = true) ∧
    (envServerOnly.hasNtripServer = true → envServerOnly.serverRaises = false →
      serverBranch envServerOnly false [0x41] = .wrote [0x41]) :=
  (gps_data_routing cfg0 envServerOnly st0 [0x41] (by decide)).2.2 (by decide)

theorem serialBranch_clear (cfg : GpsCfg) (env : GpsEnv) (v : List Nat) :
    serialBranch cfg env v =
      if env.serialRaises = true ∧ serialBranch cfg (clearRaises env) v ≠ .skipped
      then .failed else serialBranch cfg (clearRaises env) v := by
  rcases he : cfg.ENABLE_SERIAL_CLIENT with _ | _ <;>
    rcases ht : env.serialTxDone with _ | _ <;>
      rcases hr : env.serialRaises with _ | _ <;>
        simp [serialBranch, clearRaises, he, ht, hr]

theorem blueBranch_clear (cfg : GpsCfg) (env : GpsEnv) (v : List Nat) :
    blueBranch cfg env v =
      if env.blueRaises = true ∧ blueBranch cfg (clearRaises env) v ≠ .skipped
      then .failed else blueBranch cfg (clearRaises env) v := by
  rcases he : cfg.ENABLE_BLUETOOTH with _ | _ <;>
    rcases ht : env.blueConnected with _ | _ <;>
      rcases hr : env.blueRaises with _ | _ <;>
        simp [blueBranch, clearRaises, he, ht, hr]

theorem espnowBranch_clear (cfg : GpsCfg) (env : GpsEnv) (v : List Nat) :
    espnowBranch cfg env v =
      if env.espnowRaises = true ∧ espnowBranch cfg (clearRaises env) v ≠ .skipped
      then .failed else espnowBranch cfg (clearRaises env) v := by
  rcases he : cfg.espnowSender with _ | _ <;>
    rcases ht : env.espnowConnected with _ | _ <;>
      rcases hr : env.espnowRaises with _ | _ <;>
        simp [espnowBranch, clearRaises, he, ht, hr]

theorem serverBranch_clear (env : GpsEnv) (isN : Bool) (v : List Nat) :
    serverBranch env isN v =
      if env.serverRaises = true ∧ serverBranch (clearRaises env) isN v ≠ .skipped
      then .failed else serverBranch (clearRaises env) isN v := by
  rcases hn : isN with _ | _ <;>
    rcases ht : env.hasNtripServer with _ | _ <;>
      rcases hr : env.serverRaises with _ | _ <;>
        simp [serverBranch, clearRaises, ht, hr]

/-- C8 (amended): a failure in an individual sink-write branch is caught in
that branch: it never makes `gps_data` fail, never changes the routing state
or the position-fix effect, and leaves every other branch's outcome intact —
the run differs from the all-sinks-succeed run only in that the failing
branch reports `failed` where it would have written.  The fix-extraction /
transform block, by contrast, is not guarded: its errors fail the whole call
(independently of the sink flags) before any sink branch runs. -/
theorem gps_data_sink_isolation (cfg : GpsCfg) (env : GpsEnv) (st : GpsState)
    (line : List Nat) :
    (∀ e, gps_data cfg env st line = .error e ↔
        gps_data cfg (clearRaises env) st line = .error e) ∧
    (∀ eff st2, gps_data cfg (clearRaises env) st line = .ok (eff, st2) →
      gps_data cfg env st line = .ok
        (⟨eff.ggaSet,
          (if env.serialRaises = true ∧ eff.serial ≠ .skipped then .failed else eff.serial),
          (if env.blueRaises = true ∧ eff.blue ≠ .skipped then .failed else eff.blue),
          (if env.espnowRaises = true ∧ eff.espnow ≠ .skipped then .failed else eff.espnow),
          (if env.serverRaises = true ∧ eff.server ≠ .skipped then .failed else eff.server)⟩,
          st2)) := by
  have hnp : nmeaProcess cfg (clearRaises env) st line = nmeaProcess cfg env st line := rfl
  constructor
  · intro e
    unfold gps_data
    rw [hnp]
    by_cases hl : line = []
    · rw [if_pos hl, if_pos hl]
    · rw [if_neg hl, if_neg hl]
      rcases hn : nmeaProcess cfg env st line with e2 | ⟨l2, st2, gga⟩ <;> dsimp only
      · exact Iff.rfl
      · simp
  · intro eff st2 h
    unfold gps_data at h ⊢
    rw [hnp] at h
    by_cases hl : line = []
    · rw [if_pos hl] at h ⊢
      cases h
      simp [noEffects]
    · rw [if_neg hl] at h ⊢
      rcases hn : nmeaProcess cfg env st line with e2 | ⟨l2, st3, gga⟩ <;> rw [hn] at h <;>
        dsimp only at h ⊢
      · cases h
      · cases h
        dsimp only
        rw [← serialBranch_clear, ← blueBranch_clear, ← espnowBranch_clear,
          ← serverBranch_clear]

/-- Witness for `gps_data_sink_isolation`: the serial write fails, the call
still succeeds and only the serial branch reports the failure. -/
theorem gps_data_sink_isolation_witness :
    gps_data cfgSer envSerRaise st0 [0x41] = .ok
      (⟨none,
        (if envSerRaise.serialRaises = true ∧ SinkRes.wrote [0x41] ≠ SinkRes.skipped
          then .failed else .wrote [0x41]),
        (if envSerRaise.blueRaises = true ∧ SinkRes.skipped ≠ SinkRes.skipped
          then .failed else .skipped),
        (if envSerRaise.espnowRaises = true ∧ SinkRes.skipped ≠ SinkRes.skipped
          then .failed else .skipped),
        (if envSerRaise.serverRaises = true ∧ SinkRes.skipped ≠ SinkRes.skipped
          then .failed else .skipped)⟩, st0) :=
  (gps_data_sink_isolation cfgSer envSerRaise st0 [0x41]).2
    ⟨none, .wrote [0x41], .skipped, .skipped, .skipped⟩ st0 rfl

theorem applySets_getLast :
    ∀ (sets : List (List Nat)) (g : Option (List Nat)),
      applySets g sets = (sets.getLast?).elim g some := by
  intro sets
  induction sets with
  | nil => intro g; rfl
  | cons a l ih =>
    intro g
    rcases l with _ | ⟨b, l2⟩
    · rfl
    · show applySets (some a) (b :: l2) = _
      rw [ih (some a)]
      rfl

theorem send_gga_length :
    ∀ (rs : List GgaRound) (g : Option (List Nat)), (send_gga g rs).length = rs.length := by
  intro rs
  induction rs with
  | nil => intro g; rfl
  | cons r rs2 ih => intro g; simp [send_gga, ih]

theorem send_gga_sleep :
    ∀ (rs : List GgaRound) (g : Option (List Nat)) (e : GgaEvent × Nat),
      e ∈ send_gga g rs → e.2 = 5 := by
  intro rs
  induction rs with
  | nil => intro g e h; cases h
  | cons r rs2 ih =>
    intro g e h
    rcases List.mem_cons.1 h with h | h
    · rw [h]
    · exact ih _ e h

theorem sendGgaEvent_write :
    ∀ (g : Option (List Nat)) (r : GgaRound) (v : List Nat),
      sendGgaEvent g r = .wrote v ∨ sendGgaEvent g r = .writeFailed v →
      r.writerPresent = true ∧ g = some v := by
  intro g r v h
  rcases g with _ | u <;> rcases hw : r.writerPresent with _ | _ <;>
    rcases hf : r.writeFails with _ | _ <;>
      simp [sendGgaEvent, hw, hf] at h <;> simp [h]

/-- C9: the relay loop emits exactly one event per fixed 5-second interval
(its trace has one entry per round and every entry sleeps 5 seconds —
failures included, with the loop continuing into the remaining rounds and
never reconnecting), writes only when a connection writer exists and a fix
is stored, and writes exactly the most recently stored value: the last
`set_gga_sentence` of the interval when the fix was set during it. -/
theorem send_gga_spec (g : Option (List Nat)) (rs : List GgaRound) :
    (send_gga g rs).length = rs.length ∧
    (∀ e ∈ send_gga g rs, e.2 = 5) ∧
    (∀ r rs2, rs = r :: rs2 →
      send_gga g rs =
        (sendGgaEvent (applySets g r.sets) r, 5) :: send_gga (applySets g r.sets) rs2 ∧
      (∀ v, sendGgaEvent (applySets g r.sets) r = .wrote v ∨
            sendGgaEvent (applySets g r.sets) r = .writeFailed v →
        r.writerPresent = true ∧ applySets g r.sets = some v ∧
        (∀ w, r.sets.getLast? = some w → v = w))) := by
  refine ⟨send_gga_length rs g, send_gga_sleep rs g, ?_⟩
  intro r rs2 hrs
  subst hrs
  refine ⟨rfl, ?_⟩
  intro v hv
  obtain ⟨hw, hg⟩ := sendGgaEvent_write (applySets g r.sets) r v hv
  refine ⟨hw, hg, ?_⟩
  intro w hw2
  have h2 := applySets_getLast r.sets g
  rw [hw2, hg] at h2
  simpa using h2

/-- Witness for `send_gga_spec`: three `set_gga_sentence` calls in one
interval produce one write carrying only the last-set value. -/
theorem send_gga_spec_witness :
    send_gga none [⟨[[0x41], [0x42], [0x43]], true, false⟩] =
      (sendGgaEvent (applySets none [[0x41], [0x42], [0x43]])
          ⟨[[0x41], [0x42], [0x43]], true, false⟩, 5) ::
        send_gga (applySets none [[0x41], [0x42], [0x43]]) [] ∧
    (∀ v, sendGgaEvent (applySets none [[0x41], [0x42], [0x43]])
            ⟨[[0x41], [0x42], [0x43]], true, false⟩ = .wrote v ∨
          sendGgaEvent (applySets none [[0x41], [0x42], [0x43]])
            ⟨[[0x41], [0x42], [0x43]], true, false⟩ = .writeFailed v →
      (⟨[[0x41], [0x42], [0x43]], true, false⟩ : GgaRound).writerPresent = true ∧
      applySets none [[0x41], [0x42], [0x43]] = some v ∧
      (∀ w, ([[0x41], [0x42], [0x43]] : List (List Nat)).getLast? = some w → v = w)) :=
  (send_gga_spec none [⟨[[0x41], [0x42], [0x43]], true, false⟩]).2.2
    ⟨[[0x41], [0x42], [0x43]], true, false⟩ [] rfl

end Esp32Gps

